import Mathlib

/-!
Shallow embedding of `pkg/cli/flags.go` from amazon-ec2-instance-selector.

The Go file defines a typed flag-registration layer over pflag: each builder
registers a raw flag in `cl.Flags` (a map from name to an `interface{}` value),
optionally records the name in `cl.nilDefaults` (caller passed a nil default),
in `cl.rangeFlags` (range triplets), and attaches processor/validator closures
keyed by name in `cl.processors` / `cl.validators`.

Modelling choices, stated once:
* Go `float64` is modelled by `F64`: an exact rational plus the IEEE special
  values `inf`, `negInf`, `nan`.  Division is exact where IEEE would round;
  the sign/zero cases of division (which produce infinities and NaN) are
  modelled faithfully.
* Go maps are modelled by association lists; map assignment replaces the
  binding in place or appends.
* Processor and validator closures capture `cl` mutably, so they are modelled
  in defunctionalised form (`PSpec`/`VSpec` tags interpreted by `runProcessor`
  / `runValidator`), each returning the updated registry together with an
  optional error message, exactly mirroring the Go bodies.
* Calls into external libraries (`regexp.Compile`, `homedir.Expand`) and
  into the repository's `bytequantity.ParseToByteQuantity` are kept abstract
  as parameters of an `Ext` record; `ByteQuantity.MiB` and
  `ByteQuantity.StringGiB`, which claims depend on, are modelled from the
  spec (see their doc comments).
* `flagSet` / shorthand / description arguments only affect pflag's help
  output, never the registry semantics (both branches of every
  `if shorthand != nil` store the same value), so they are elided.
* A failed Go type assertion such as `val.(*string)` panics; the model
  surfaces that terminal outcome as an error message beginning `panic:`.
-/

/-- Exact model of a Go `float64` value: a finite value carried exactly as a
rational, or one of the IEEE special values. -/
inductive F64 where
  | fin (q : Rat)
  | inf
  | negInf
  | nan
  deriving DecidableEq, Repr

/-- IEEE `>` on modelled doubles: any comparison with NaN is false, `+Inf` is
above every non-NaN value, `-Inf` below. -/
def F64.gtb : F64 → F64 → Bool
  | .nan, _ => false
  | _, .nan => false
  | .inf, .inf => false
  | .inf, _ => true
  | _, .inf => false
  | .negInf, _ => false
  | .fin _, .negInf => true
  | .fin a, .fin b => decide (b < a)

/-- Go `float64` division `a / b` for finite operands: IEEE produces `+Inf`
(resp. `-Inf`) when a positive (negative) value is divided by zero and NaN
for `0 / 0`; otherwise the exact quotient (rounding elided). -/
def f64Div (a b : Rat) : F64 :=
  if b = 0 then
    if 0 < a then .inf
    else if a < 0 then .negInf
    else .nan
  else .fin (a / b)

/-- Modelled from the spec: `bytequantity.ByteQuantity` (repository package
`pkg/bytequantity`, not present under the visible sources).  "A value object
representing a non-negative quantity of bytes; canonical internal
representation is an integer count of bytes". -/
structure ByteQuantity where
  quantity : Nat
  deriving DecidableEq, Repr

/-- Modelled from the spec: `ByteQuantity.MiB` returns the canonical magnitude
expressed in mebibytes ("comparison is by canonical magnitude"); exact
rational in place of the Go `float64`. -/
def ByteQuantity.MiB (bq : ByteQuantity) : Rat :=
  (bq.quantity : Rat) / (2 ^ 20 : Rat)

/-- Modelled from the spec: `ByteQuantity.StringGiB` formats "the canonical
magnitude as a decimal number of gibibytes for display purposes". -/
def ByteQuantity.StringGiB (bq : ByteQuantity) : String :=
  toString ((bq.quantity : Rat) / (2 ^ 30 : Rat)) ++ " gb"

/-- A resolved registry value: the dynamic (`interface{}`) payloads that
`flags.go` ever stores in `cl.Flags`.  A compiled regular expression is
identified by its source pattern. -/
inductive Val where
  | str (s : String)
  | int (n : Int)
  | i32 (n : Int)
  | f64 (x : F64)
  | boolV (b : Bool)
  | strSlice (l : List String)
  | byteQ (bq : ByteQuantity)
  | regex (pattern : String)
  deriving DecidableEq, Repr

/-- Go map assignment `m[k] = v`: replace the binding in place, or append. -/
def setAssoc {α : Type} : List (String × α) → String → α → List (String × α)
  | [], n, v => [(n, v)]
  | (m, w) :: rest, n, v =>
      if m = n then (n, v) :: rest else (m, w) :: setAssoc rest n v

/-- Go map read `m[k]`: `none` models both a missing key and Go's nil zero
value. -/
def lookupAssoc {α : Type} : List (String × α) → String → Option α
  | [], _ => none
  | (m, w) :: rest, n => if m = n then some w else lookupAssoc rest n

/-- Go set-map assignment `m[k] = true` on a map used as a string set. -/
def insertName (n : String) (l : List String) : List String :=
  if n ∈ l then l else n :: l

/-- Defunctionalised processors: the processor closures `flags.go` creates. -/
inductive PSpec where
  | byteQuantityProcessor (name : String)
  | regexProcessor (name : String)
  | pathProcessor (name : String)
  deriving DecidableEq, Repr

/-- Defunctionalised validators: the validator closures `flags.go` creates. -/
inductive VSpec where
  | ratioV (name : String)
  | intRange (name : String)
  | int32Range (name : String)
  | float64Range (name : String)
  | byteQuantityRange (name : String)
  | stringOpts (name : String) (validOpts : List String)
  | byteQuantityValidator (name : String)
  | regexValidator (name : String)
  deriving DecidableEq, Repr

/-- The mutable registration state of a `CommandLineInterface`: the fields of
the Go struct that `flags.go` reads or writes. -/
structure CLIState where
  flags : List (String × Val)
  nilDefaults : List String
  rangeFlags : List String
  processors : List (String × Option PSpec)
  validators : List (String × Option VSpec)
  deriving DecidableEq, Repr

/-- External calls whose internals are outside `flags.go`: regex compilation
(Go `regexp.Compile`, result identified by its pattern), home-directory
expansion (`homedir.Expand`), and byte-quantity parsing
(`bytequantity.ParseToByteQuantity`); `none` models a returned error. -/
structure ExtCalls where
  compileRegex : String → Option String
  expandPath : String → Option String
  parseToByteQuantity : String → Option ByteQuantity

/-- `BoolFlagOnFlagSet`: nil default records the name and installs `false`. -/
def BoolFlagOnFlagSet (st : CLIState) (name : String) (defaultValue : Option Bool) : CLIState :=
  match defaultValue with
  | none =>
      { st with nilDefaults := insertName name st.nilDefaults,
                flags := setAssoc st.flags name (.boolV false) }
  | some d => { st with flags := setAssoc st.flags name (.boolV d) }

/-- `IntFlagOnFlagSet`: nil default records the name and installs `0`. -/
def IntFlagOnFlagSet (st : CLIState) (name : String) (defaultValue : Option Int) : CLIState :=
  match defaultValue with
  | none =>
      { st with nilDefaults := insertName name st.nilDefaults,
                flags := setAssoc st.flags name (.int 0) }
  | some d => { st with flags := setAssoc st.flags name (.int d) }

/-- `Int32FlagOnFlagSet`: nil default records the name and installs `0`. -/
def Int32FlagOnFlagSet (st : CLIState) (name : String) (defaultValue : Option Int) : CLIState :=
  match defaultValue with
  | none =>
      { st with nilDefaults := insertName name st.nilDefaults,
                flags := setAssoc st.flags name (.i32 0) }
  | some d => { st with flags := setAssoc st.flags name (.i32 d) }

/-- `Float64FlagOnFlagSet`: nil default records the name and installs `0.0`. -/
def Float64FlagOnFlagSet (st : CLIState) (name : String) (defaultValue : Option F64) : CLIState :=
  match defaultValue with
  | none =>
      { st with nilDefaults := insertName name st.nilDefaults,
                flags := setAssoc st.flags name (.f64 (.fin 0)) }
  | some d => { st with flags := setAssoc st.flags name (.f64 d) }

/-- `StringSliceFlagOnFlagSet`: nil default records the name and installs `[]`. -/
def StringSliceFlagOnFlagSet (st : CLIState) (name : String) (defaultValue : Option (List String)) : CLIState :=
  match defaultValue with
  | none =>
      { st with nilDefaults := insertName name st.nilDefaults,
                flags := setAssoc st.flags name (.strSlice []) }
  | some d => { st with flags := setAssoc st.flags name (.strSlice d) }

/-- `StringFlagOnFlagSet`: nil default records the name and installs `""`;
always stores the given processor and validator under the name (a Go nil
function is `none`). -/
def StringFlagOnFlagSet (st : CLIState) (name : String) (defaultValue : Option String)
    (processorFn : Option PSpec) (validationFn : Option VSpec) : CLIState :=
  let st1 : CLIState :=
    match defaultValue with
    | none =>
        { st with nilDefaults := insertName name st.nilDefaults,
                  flags := setAssoc st.flags name (.str "") }
    | some d => { st with flags := setAssoc st.flags name (.str d) }
  { st1 with processors := setAssoc st1.processors name processorFn,
             validators := setAssoc st1.validators name validationFn }

/-- `RatioFlag`: a string flag (with the same nil-default handling) whose
transformation is registered as its validator. -/
def RatioFlag (st : CLIState) (name : String) (defaultValue : Option String) : CLIState :=
  let st1 : CLIState :=
    match defaultValue with
    | none =>
        { st with nilDefaults := insertName name st.nilDefaults,
                  flags := setAssoc st.flags name (.str "") }
    | some d => { st with flags := setAssoc st.flags name (.str d) }
  { st1 with validators := setAssoc st1.validators name (some (.ratioV name)) }

/-- `ByteQuantityFlagOnFlagSet`: a string flag whose processor parses the
string into a `ByteQuantity` and whose validator checks the stored kind; an
explicit default is rendered with `StringGiB`. -/
def ByteQuantityFlagOnFlagSet (st : CLIState) (name : String)
    (defaultValue : Option ByteQuantity) : CLIState :=
  let stringDefaultValue := defaultValue.map ByteQuantity.StringGiB
  StringFlagOnFlagSet st name stringDefaultValue
    (some (.byteQuantityProcessor name)) (some (.byteQuantityValidator name))

/-- `RegexFlagOnFlagSet`: a string flag with the regex processor/validator. -/
def RegexFlagOnFlagSet (st : CLIState) (name : String) (defaultValue : Option String) : CLIState :=
  StringFlagOnFlagSet st name defaultValue
    (some (.regexProcessor name)) (some (.regexValidator name))

/-- `PathFlagOnFlagSet`: a string flag with the path processor, nil validator. -/
def PathFlagOnFlagSet (st : CLIState) (name : String) (defaultValue : Option String) : CLIState :=
  StringFlagOnFlagSet st name defaultValue (some (.pathProcessor name)) none

/-- `StringOptionsFlagOnFlagSet`: a string flag with nil processor and the
allow-list validator. -/
def StringOptionsFlagOnFlagSet (st : CLIState) (name : String) (defaultValue : Option String)
    (validOpts : List String) : CLIState :=
  StringFlagOnFlagSet st name defaultValue none (some (.stringOpts name validOpts))

/-- Splits a character list at every occurrence of `sep`, keeping empty
segments (the behaviour of Go `strings.Split` with a one-character
separator). -/
def splitOnChar (sep : Char) : List Char → List (List Char)
  | [] => [[]]
  | c :: rest =>
      if c = sep then [] :: splitOnChar sep rest
      else
        match splitOnChar sep rest with
        | [] => [[c]]
        | h :: t => (c :: h) :: t

/-- Go `strings.Split` with a one-character separator. -/
def goSplit (s : String) (sep : Char) : List String :=
  (splitOnChar sep s.data).map String.mk

/-- Models Go `strconv.Atoi` on a 64-bit platform: optional sign, decimal
digits, failure (`none`) on empty input, non-digits, or overflow past the
64-bit int bounds (`9223372036854775807 = 2^63 - 1`). -/
def goAtoi (s : String) : Option Int :=
  match s.data with
  | [] => none
  | c :: rest =>
      let signDigits : Int × List Char :=
        if c = '-' then (-1, rest)
        else if c = '+' then (1, rest)
        else (1, c :: rest)
      match signDigits with
      | (sign, digits) =>
        if digits.isEmpty then none
        else if digits.all Char.isDigit then
          let n : Int :=
            sign * ((digits.foldl (fun acc ch => acc * 10 + (ch.toNat - 48)) 0 : Nat) : Int)
          if n < -9223372036854775808 ∨ 9223372036854775807 < n then none else some n
        else none

/-- A non-empty all-digit string: one side of the ratio grammar. -/
def isDigitString (s : String) : Bool :=
  !s.data.isEmpty && s.data.all Char.isDigit

/-- The ratio validator's `regexp.MatchString` of the anchored pattern with
digits, one colon, digits: exactly one colon, non-empty digit runs on both
sides. -/
def ratioGrammar (s : String) : Bool :=
  match goSplit s ':' with
  | [a, b] => isDigitString a && isDigitString b
  | _ => false

/-- ASCII lower-casing of one character. -/
def charLower (c : Char) : Char :=
  if 'A' ≤ c ∧ c ≤ 'Z' then Char.ofNat (c.toNat + 32) else c

/-- Models Go `strings.EqualFold`: case-insensitive equality (Unicode simple
fold in Go; coincides with per-character ASCII lower-casing on the inputs
used here). -/
def strEqualFold (a b : String) : Bool :=
  a.data.map charLower == b.data.map charLower

/-- Error for a ratio input rejected by the grammar. -/
def ratioInvalidMsg (name : String) : String :=
  "invalid input for --" ++ name ++ ". A valid example is 1:2"

/-- Error for a ratio component `strconv.Atoi` rejects. -/
def ratioIntegersMsg (name : String) : String :=
  "invalid input for --" ++ name ++ ". Ratio values must be integers. A valid example is 1:2"

/-- The ordering error of every min/max range validator, naming both flags. -/
def rangeErrMsg (minArg maxArg : String) : String :=
  "Invalid input for --" ++ minArg ++ " and --" ++ maxArg ++ ". " ++
    minArg ++ " must be less than or equal to " ++ maxArg

/-- Prefix of every byte-quantity processor/validator error. -/
def bqInvalidInputMsg (name : String) : String :=
  "Invalid input for --" ++ name ++ ". A valid example is 16gb."

/-- Prefix of every regex processor/validator error. -/
def regexInvalidInputMsg (name : String) : String :=
  "Invalid regex input for --" ++ name ++ "."

/-- Prefix of every path processor error (trailing space as in the source). -/
def pathInvalidInputMsg (name : String) : String :=
  "Invalid path input for --" ++ name ++ ". "

/-- The allow-list violation error of the string-options validator. -/
def optsErrMsg (name : String) (validOpts : List String) : String :=
  "error " ++ name ++ " must be one of: " ++ String.intercalate ", " validOpts

/-- The `byteQuantityProcessor` closure created by `ByteQuantityFlagOnFlagSet`:
parses a string value into a `ByteQuantity` and stores it, passes through an
already-parsed quantity or nil, rejects any other kind. -/
def byteQuantityProcessorFn (ext : ExtCalls) (name : String) (st : CLIState) (val : Option Val) :
    CLIState × Option String :=
  match val with
  | none => (st, none)
  | some (.str byteQuantityInput) =>
      match ext.parseToByteQuantity byteQuantityInput with
      | some bq => ({ st with flags := setAssoc st.flags name (.byteQ bq) }, none)
      | none =>
          (st, some (bqInvalidInputMsg name ++ " Can't parse byte quantity " ++ byteQuantityInput))
  | some (.byteQ _) => (st, none)
  | some _ => (st, some (bqInvalidInputMsg name ++ " Input type is unsupported"))

/-- The `regexProcessor` closure created by `RegexFlagOnFlagSet`: compiles a
string value and stores the compiled regex, passes through an already-compiled
regex or nil, rejects any other kind. -/
def regexProcessorFn (ext : ExtCalls) (name : String) (st : CLIState) (val : Option Val) :
    CLIState × Option String :=
  match val with
  | none => (st, none)
  | some (.str v) =>
      match ext.compileRegex v with
      | some regexVal => ({ st with flags := setAssoc st.flags name (.regex regexVal) }, none)
      | none => (st, some (regexInvalidInputMsg name ++ " Unable to compile the regex"))
  | some (.regex _) => (st, none)
  | some _ => (st, some (regexInvalidInputMsg name ++ " Input type is unsupported"))

/-- The `pathProcessor` closure created by `PathFlagOnFlagSet`: expands a
string value via the home-directory expander and stores the result, rejects
any non-string kind. -/
def pathProcessorFn (ext : ExtCalls) (name : String) (st : CLIState) (val : Option Val) :
    CLIState × Option String :=
  match val with
  | none => (st, none)
  | some (.str v) =>
      match ext.expandPath v with
      | some path => ({ st with flags := setAssoc st.flags name (.str path) }, none)
      | none => (st, some (pathInvalidInputMsg name ++ " Unable to expand path"))
  | some _ => (st, some (pathInvalidInputMsg name ++ " Input type is unsupported"))

/-- Interprets a processor closure on the registry: returns the updated
state and an optional error, mirroring that the Go closures mutate `cl.Flags`
in place and return an `error`. -/
def runProcessor (ext : ExtCalls) (ps : PSpec) (st : CLIState) (val : Option Val) :
    CLIState × Option String :=
  match ps with
  | .byteQuantityProcessor name => byteQuantityProcessorFn ext name st val
  | .regexProcessor name => regexProcessorFn ext name st val
  | .pathProcessor name => pathProcessorFn ext name st val

/-- The validator closure created by `RatioFlag`: checks the
`digits:digits` grammar, converts both sides with `strconv.Atoi`, and on
success overwrites the flag value with the float factor `second/first`
(in Go a zero first component yields an IEEE infinity, unguarded). -/
def ratioValidatorFn (name : String) (st : CLIState) (val : Option Val) :
    CLIState × Option String :=
  match val with
  | none => (st, none)
  | some (.str vcpuToMemRatioVal) =>
      if ratioGrammar vcpuToMemRatioVal then
        match goSplit vcpuToMemRatioVal ':' with
        | v0 :: v1 :: _ =>
          match goAtoi v0, goAtoi v1 with
          | some vcpusRatioVal, some memRatioVal =>
              ({ st with flags :=
                  setAssoc st.flags name (.f64 (f64Div (memRatioVal : Rat) (vcpusRatioVal : Rat))) },
               none)
          | _, _ => (st, some (ratioIntegersMsg name))
        | _ => (st, some "panic: index out of range")
      else (st, some (ratioInvalidMsg name))
  | some _ => (st, some "panic: interface conversion")

/-- The ordering validator of `IntMinMaxRangeFlagOnFlagSet`: succeeds when
either derived entry is absent, otherwise compares the two ints. -/
def intRangeValidatorFn (name : String) (st : CLIState) (_val : Option Val) :
    CLIState × Option String :=
  match lookupAssoc st.flags (name ++ "-min"), lookupAssoc st.flags (name ++ "-max") with
  | none, _ => (st, none)
  | _, none => (st, none)
  | some (.int minVal), some (.int maxVal) =>
      if maxVal < minVal then
        (st, some (rangeErrMsg (name ++ "-min") (name ++ "-max")))
      else (st, none)
  | some _, some _ => (st, some "panic: interface conversion")

/-- The ordering validator of `Int32MinMaxRangeFlagOnFlagSet`. -/
def int32RangeValidatorFn (name : String) (st : CLIState) (_val : Option Val) :
    CLIState × Option String :=
  match lookupAssoc st.flags (name ++ "-min"), lookupAssoc st.flags (name ++ "-max") with
  | none, _ => (st, none)
  | _, none => (st, none)
  | some (.i32 minVal), some (.i32 maxVal) =>
      if maxVal < minVal then
        (st, some (rangeErrMsg (name ++ "-min") (name ++ "-max")))
      else (st, none)
  | some _, some _ => (st, some "panic: interface conversion")

/-- The ordering validator of `Float64MinMaxRangeFlagOnFlagSet`. -/
def float64RangeValidatorFn (name : String) (st : CLIState) (_val : Option Val) :
    CLIState × Option String :=
  match lookupAssoc st.flags (name ++ "-min"), lookupAssoc st.flags (name ++ "-max") with
  | none, _ => (st, none)
  | _, none => (st, none)
  | some (.f64 minVal), some (.f64 maxVal) =>
      if minVal.gtb maxVal then
        (st, some (rangeErrMsg (name ++ "-min") (name ++ "-max")))
      else (st, none)
  | some _, some _ => (st, some "panic: interface conversion")

/-- The ordering validator of `ByteQuantityMinMaxRangeFlagOnFlagSet`:
compares the `MiB` magnitudes of the two stored quantities. -/
def byteQuantityRangeValidatorFn (name : String) (st : CLIState) (_val : Option Val) :
    CLIState × Option String :=
  match lookupAssoc st.flags (name ++ "-min"), lookupAssoc st.flags (name ++ "-max") with
  | none, _ => (st, none)
  | _, none => (st, none)
  | some (.byteQ minBq), some (.byteQ maxBq) =>
      if maxBq.MiB < minBq.MiB then
        (st, some (rangeErrMsg (name ++ "-min") (name ++ "-max")))
      else (st, none)
  | some _, some _ => (st, some "panic: interface conversion")

/-- The validator closure created by `StringOptionsFlagOnFlagSet`:
case-insensitive membership in the allow-list; on an empty allow-list the
Go loop body (and its type assertion) never runs and the error is returned
directly. -/
def stringOptsValidatorFn (name : String) (validOpts : List String) (st : CLIState)
    (val : Option Val) : CLIState × Option String :=
  match val with
  | none => (st, none)
  | some v =>
    match validOpts with
    | [] => (st, some (optsErrMsg name validOpts))
    | _ :: _ =>
      match v with
      | .str s =>
          if validOpts.any (fun w => strEqualFold w s) then (st, none)
          else (st, some (optsErrMsg name validOpts))
      | _ => (st, some "panic: interface conversion")

/-- The `byteQuantityValidator` closure: checks the stored kind is a parsed
`ByteQuantity` (defensive check that processing ran). -/
def byteQuantityValidatorFn (name : String) (st : CLIState) (val : Option Val) :
    CLIState × Option String :=
  match val with
  | none => (st, none)
  | some (.byteQ _) => (st, none)
  | some _ => (st, some (bqInvalidInputMsg name ++ " Processing failed"))

/-- The `regexValidator` closure: checks the stored kind is a compiled
regex. -/
def regexValidatorFn (name : String) (st : CLIState) (val : Option Val) :
    CLIState × Option String :=
  match val with
  | none => (st, none)
  | some (.regex _) => (st, none)
  | some _ => (st, some (regexInvalidInputMsg name ++ " Processing failed"))

/-- Interprets a validator closure on the registry.  The ratio validator and
the four range validators are closures over `cl`; the ratio one writes the
derived factor back into `cl.Flags`, the range ones read the `-min`/`-max`
entries.  A failed type assertion in Go panics; modelled as a `panic:`
error outcome. -/
def runValidator (vs : VSpec) (st : CLIState) (val : Option Val) :
    CLIState × Option String :=
  match vs with
  | .ratioV name => ratioValidatorFn name st val
  | .intRange name => intRangeValidatorFn name st val
  | .int32Range name => int32RangeValidatorFn name st val
  | .float64Range name => float64RangeValidatorFn name st val
  | .byteQuantityRange name => byteQuantityRangeValidatorFn name st val
  | .stringOpts name validOpts => stringOptsValidatorFn name validOpts st val
  | .byteQuantityValidator name => byteQuantityValidatorFn name st val
  | .regexValidator name => regexValidatorFn name st val

/-- `IntMinMaxRangeFlagOnFlagSet`: registers the base, `-min`, and `-max`
flags (the derived pair always with nil defaults), attaches the ordering
validator to the base name, and marks the base as a range flag. -/
def IntMinMaxRangeFlagOnFlagSet (st : CLIState) (name : String) (defaultValue : Option Int) : CLIState :=
  let st1 := IntFlagOnFlagSet st name defaultValue
  let st2 := IntFlagOnFlagSet st1 (name ++ "-min") none
  let st3 := IntFlagOnFlagSet st2 (name ++ "-max") none
  let st4 := { st3 with validators := setAssoc st3.validators name (some (.intRange name)) }
  { st4 with rangeFlags := insertName name st4.rangeFlags }

/-- `Int32MinMaxRangeFlagOnFlagSet`: 32-bit variant of the range triplet. -/
def Int32MinMaxRangeFlagOnFlagSet (st : CLIState) (name : String) (defaultValue : Option Int) : CLIState :=
  let st1 := Int32FlagOnFlagSet st name defaultValue
  let st2 := Int32FlagOnFlagSet st1 (name ++ "-min") none
  let st3 := Int32FlagOnFlagSet st2 (name ++ "-max") none
  let st4 := { st3 with validators := setAssoc st3.validators name (some (.int32Range name)) }
  { st4 with rangeFlags := insertName name st4.rangeFlags }

/-- `Float64MinMaxRangeFlagOnFlagSet`: float variant of the range triplet. -/
def Float64MinMaxRangeFlagOnFlagSet (st : CLIState) (name : String) (defaultValue : Option F64) : CLIState :=
  let st1 := Float64FlagOnFlagSet st name defaultValue
  let st2 := Float64FlagOnFlagSet st1 (name ++ "-min") none
  let st3 := Float64FlagOnFlagSet st2 (name ++ "-max") none
  let st4 := { st3 with validators := setAssoc st3.validators name (some (.float64Range name)) }
  { st4 with rangeFlags := insertName name st4.rangeFlags }

/-- `ByteQuantityMinMaxRangeFlagOnFlagSet`: byte-quantity variant of the
range triplet; the three underlying flags are byte-quantity string flags. -/
def ByteQuantityMinMaxRangeFlagOnFlagSet (st : CLIState) (name : String)
    (defaultValue : Option ByteQuantity) : CLIState :=
  let st1 := ByteQuantityFlagOnFlagSet st name defaultValue
  let st2 := ByteQuantityFlagOnFlagSet st1 (name ++ "-min") none
  let st3 := ByteQuantityFlagOnFlagSet st2 (name ++ "-max") none
  let st4 := { st3 with validators := setAssoc st3.validators name (some (.byteQuantityRange name)) }
  { st4 with rangeFlags := insertName name st4.rangeFlags }

/-! ## Basic lemmas about the registry operations -/

@[simp]
theorem lookupAssoc_setAssoc_self {α : Type} (l : List (String × α)) (n : String) (v : α) :
    lookupAssoc (setAssoc l n v) n = some v := by
  induction l with
  | nil => simp [setAssoc, lookupAssoc]
  | cons hd tl ih =>
      obtain ⟨m, w⟩ := hd
      by_cases h : m = n
      · simp [setAssoc, lookupAssoc, h]
      · simp [setAssoc, lookupAssoc, h, ih]

theorem lookupAssoc_setAssoc_ne {α : Type} (l : List (String × α)) (n m : String) (v : α)
    (h : m ≠ n) : lookupAssoc (setAssoc l n v) m = lookupAssoc l m := by
  have hnm : ¬n = m := fun hc => h hc.symm
  induction l with
  | nil => simp [setAssoc, lookupAssoc, hnm]
  | cons hd tl ih =>
      obtain ⟨k, w⟩ := hd
      by_cases hk : k = n
      · subst hk
        simp [setAssoc, lookupAssoc, hnm]
      · simp only [setAssoc, if_neg hk, lookupAssoc]
        by_cases hm : k = m <;> simp [hm, ih]

theorem mem_insertName (x n : String) (l : List String) :
    x ∈ insertName n l ↔ x = n ∨ x ∈ l := by
  unfold insertName
  split
  · next h => constructor
              · exact fun hx => Or.inr hx
              · rintro (rfl | hx)
                · exact h
                · exact hx
  · simp [List.mem_cons]

theorem self_mem_insertName (n : String) (l : List String) : n ∈ insertName n l :=
  (mem_insertName n n l).mpr (Or.inl rfl)

theorem string_ne_append_of_length_pos (s t : String) (ht : 0 < t.length) :
    s ≠ s ++ t := by
  intro h
  have hlen := congrArg String.length h
  rw [String.length_append] at hlen
  omega

theorem append_left_injective (s t u : String) (h : s ++ t = s ++ u) : t = u := by
  have hd := congrArg String.data h
  simp only [String.data_append] at hd
  have hc := List.append_cancel_left hd
  cases t; cases u; exact congrArg String.mk hc

theorem base_ne_min (n : String) : n ≠ n ++ "-min" :=
  string_ne_append_of_length_pos n "-min" (by decide)

theorem base_ne_max (n : String) : n ≠ n ++ "-max" :=
  string_ne_append_of_length_pos n "-max" (by decide)

theorem min_ne_max (n : String) : n ++ "-min" ≠ n ++ "-max" := by
  intro h
  have hc := append_left_injective n "-min" "-max" h
  exact absurd hc (by decide)

/-- `MiB` is strictly monotone in the canonical byte count: comparing
mebibyte magnitudes is comparing byte counts. -/
theorem MiB_lt_MiB_iff (a b : ByteQuantity) : a.MiB < b.MiB ↔ a.quantity < b.quantity := by
  unfold ByteQuantity.MiB
  rw [div_lt_div_iff_of_pos_right (by norm_num)]
  exact_mod_cast Iff.rfl

/-! ## Claim theorems -/

/-- C1: for every registered range triplet (int, int32, float64,
byte-quantity), the ordering validator returns the error naming both the
`<name>-min` and `<name>-max` flags exactly when both registry entries are
present and the resolved min value is strictly greater than the resolved max
value; if either entry is absent the validator succeeds without any ordering
check. -/
theorem rangeValidators_ordering (st : CLIState) (name : String) (val : Option Val) :
    (∀ a b : Int,
       lookupAssoc st.flags (name ++ "-min") = some (.int a) →
       lookupAssoc st.flags (name ++ "-max") = some (.int b) →
       runValidator (.intRange name) st val =
         (st, if b < a then some (rangeErrMsg (name ++ "-min") (name ++ "-max")) else none)) ∧
    (lookupAssoc st.flags (name ++ "-min") = none ∨
       lookupAssoc st.flags (name ++ "-max") = none →
       runValidator (.intRange name) st val = (st, none)) ∧
    (∀ a b : Int,
       lookupAssoc st.flags (name ++ "-min") = some (.i32 a) →
       lookupAssoc st.flags (name ++ "-max") = some (.i32 b) →
       runValidator (.int32Range name) st val =
         (st, if b < a then some (rangeErrMsg (name ++ "-min") (name ++ "-max")) else none)) ∧
    (lookupAssoc st.flags (name ++ "-min") = none ∨
       lookupAssoc st.flags (name ++ "-max") = none →
       runValidator (.int32Range name) st val = (st, none)) ∧
    (∀ a b : F64,
       lookupAssoc st.flags (name ++ "-min") = some (.f64 a) →
       lookupAssoc st.flags (name ++ "-max") = some (.f64 b) →
       runValidator (.float64Range name) st val =
         (st, if a.gtb b then some (rangeErrMsg (name ++ "-min") (name ++ "-max")) else none)) ∧
    (lookupAssoc st.flags (name ++ "-min") = none ∨
       lookupAssoc st.flags (name ++ "-max") = none →
       runValidator (.float64Range name) st val = (st, none)) ∧
    (∀ a b : ByteQuantity,
       lookupAssoc st.flags (name ++ "-min") = some (.byteQ a) →
       lookupAssoc st.flags (name ++ "-max") = some (.byteQ b) →
       runValidator (.byteQuantityRange name) st val =
         (st, if b.MiB < a.MiB then some (rangeErrMsg (name ++ "-min") (name ++ "-max")) else none)) ∧
    (lookupAssoc st.flags (name ++ "-min") = none ∨
       lookupAssoc st.flags (name ++ "-max") = none →
       runValidator (.byteQuantityRange name) st val = (st, none)) := by
  refine ⟨?_, ?_, ?_, ?_, ?_, ?_, ?_, ?_⟩
  · intro a b h1 h2
    simp only [runValidator]; unfold intRangeValidatorFn
    rw [h1, h2]
    by_cases hc : b < a <;> simp [hc]
  · rintro (h | h)
    · cases hmax : lookupAssoc st.flags (name ++ "-max") with
      | none => simp only [runValidator]; unfold intRangeValidatorFn; rw [h, hmax]
      | some v => simp only [runValidator]; unfold intRangeValidatorFn; rw [h, hmax]
    · cases hmin : lookupAssoc st.flags (name ++ "-min") with
      | none => simp only [runValidator]; unfold intRangeValidatorFn; rw [hmin, h]
      | some v => simp only [runValidator]; unfold intRangeValidatorFn; rw [hmin, h]; cases v <;> exact rfl
  · intro a b h1 h2
    simp only [runValidator]; unfold int32RangeValidatorFn
    rw [h1, h2]
    by_cases hc : b < a <;> simp [hc]
  · rintro (h | h)
    · cases hmax : lookupAssoc st.flags (name ++ "-max") with
      | none => simp only [runValidator]; unfold int32RangeValidatorFn; rw [h, hmax]
      | some v => simp only [runValidator]; unfold int32RangeValidatorFn; rw [h, hmax]
    · cases hmin : lookupAssoc st.flags (name ++ "-min") with
      | none => simp only [runValidator]; unfold int32RangeValidatorFn; rw [hmin, h]
      | some v => simp only [runValidator]; unfold int32RangeValidatorFn; rw [hmin, h]; cases v <;> exact rfl
  · intro a b h1 h2
    simp only [runValidator]; unfold float64RangeValidatorFn
    rw [h1, h2]
    by_cases hc : a.gtb b <;> simp [hc]
  · rintro (h | h)
    · cases hmax : lookupAssoc st.flags (name ++ "-max") with
      | none => simp only [runValidator]; unfold float64RangeValidatorFn; rw [h, hmax]
      | some v => simp only [runValidator]; unfold float64RangeValidatorFn; rw [h, hmax]
    · cases hmin : lookupAssoc st.flags (name ++ "-min") with
      | none => simp only [runValidator]; unfold float64RangeValidatorFn; rw [hmin, h]
      | some v => simp only [runValidator]; unfold float64RangeValidatorFn; rw [hmin, h]; cases v <;> exact rfl
  · intro a b h1 h2
    simp only [runValidator]; unfold byteQuantityRangeValidatorFn
    rw [h1, h2]
    by_cases hc : b.MiB < a.MiB <;> simp [hc]
  · rintro (h | h)
    · cases hmax : lookupAssoc st.flags (name ++ "-max") with
      | none => simp only [runValidator]; unfold byteQuantityRangeValidatorFn; rw [h, hmax]
      | some v => simp only [runValidator]; unfold byteQuantityRangeValidatorFn; rw [h, hmax]
    · cases hmin : lookupAssoc st.flags (name ++ "-min") with
      | none => simp only [runValidator]; unfold byteQuantityRangeValidatorFn; rw [hmin, h]
      | some v => simp only [runValidator]; unfold byteQuantityRangeValidatorFn; rw [hmin, h]; cases v <;> exact rfl

/-- Witness for C1 at concrete inputs: an int triplet with `5 > 3` fails with
the error naming both flags, a byte-quantity triplet with `3 ≤ 7` passes, and
an empty registry (absent entries) passes. -/
theorem rangeValidators_ordering_witness :
    runValidator (.intRange "c") ⟨[("c-min", .int 5), ("c-max", .int 3)], [], [], [], []⟩ none =
      (⟨[("c-min", .int 5), ("c-max", .int 3)], [], [], [], []⟩,
        some (rangeErrMsg "c-min" "c-max")) ∧
    runValidator (.byteQuantityRange "m")
        ⟨[("m-min", .byteQ ⟨3⟩), ("m-max", .byteQ ⟨7⟩)], [], [], [], []⟩ none =
      (⟨[("m-min", .byteQ ⟨3⟩), ("m-max", .byteQ ⟨7⟩)], [], [], [], []⟩, none) ∧
    runValidator (.intRange "c") ⟨[], [], [], [], []⟩ none = (⟨[], [], [], [], []⟩, none) := by
  refine ⟨?_, ?_, ?_⟩
  · have h := (rangeValidators_ordering ⟨[("c-min", .int 5), ("c-max", .int 3)], [], [], [], []⟩
      "c" none).1 5 3 (by decide) (by decide)
    rw [if_pos (by decide)] at h
    exact h
  · have h := ((rangeValidators_ordering ⟨[("m-min", .byteQ ⟨3⟩), ("m-max", .byteQ ⟨7⟩)], [], [], [], []⟩
      "m" none).2.2.2.2.2.2.1) ⟨3⟩ ⟨7⟩ (by decide) (by decide)
    rw [if_neg (by simp [MiB_lt_MiB_iff])] at h
    exact h
  · exact (rangeValidators_ordering ⟨[], [], [], [], []⟩ "c" none).2.1 (Or.inl rfl)

/-- C6: the byte-quantity ordering validator compares the `-min` and `-max`
entries by their canonical numeric magnitude in mebibytes (equivalently, by
their canonical byte counts), never by raw strings: with both entries
present it fails exactly when the magnitude of `<name>-min` exceeds the
magnitude of `<name>-max`. -/
theorem byteQuantityRange_compares_magnitude (st : CLIState) (name : String) (val : Option Val)
    (a b : ByteQuantity)
    (hmin : lookupAssoc st.flags (name ++ "-min") = some (.byteQ a))
    (hmax : lookupAssoc st.flags (name ++ "-max") = some (.byteQ b)) :
    runValidator (.byteQuantityRange name) st val =
      (st, if b.MiB < a.MiB then some (rangeErrMsg (name ++ "-min") (name ++ "-max")) else none) ∧
    (b.MiB < a.MiB ↔ b.quantity < a.quantity) := by
  constructor
  · simp only [runValidator]; unfold byteQuantityRangeValidatorFn
    rw [hmin, hmax]
    by_cases hc : b.MiB < a.MiB <;> simp [hc]
  · exact MiB_lt_MiB_iff b a

/-- Witness for C6: a 512 MiB min against a 256 MiB max fails with the error
naming both flags, and the magnitude comparison agrees with the byte-count
comparison. -/
theorem byteQuantityRange_compares_magnitude_witness :
    runValidator (.byteQuantityRange "memory")
        ⟨[("memory-min", .byteQ ⟨512 * 2 ^ 20⟩), ("memory-max", .byteQ ⟨256 * 2 ^ 20⟩)],
          [], [], [], []⟩ none =
      (⟨[("memory-min", .byteQ ⟨512 * 2 ^ 20⟩), ("memory-max", .byteQ ⟨256 * 2 ^ 20⟩)],
          [], [], [], []⟩,
        some (rangeErrMsg "memory-min" "memory-max")) ∧
    ((⟨256 * 2 ^ 20⟩ : ByteQuantity).MiB < (⟨512 * 2 ^ 20⟩ : ByteQuantity).MiB ↔
      256 * 2 ^ 20 < 512 * 2 ^ 20) := by
  have h := byteQuantityRange_compares_magnitude
    ⟨[("memory-min", .byteQ ⟨512 * 2 ^ 20⟩), ("memory-max", .byteQ ⟨256 * 2 ^ 20⟩)], [], [], [], []⟩
    "memory" none ⟨512 * 2 ^ 20⟩ ⟨256 * 2 ^ 20⟩ (by decide) (by decide)
  refine ⟨?_, h.2⟩
  have h1 := h.1
  rw [if_pos (by rw [MiB_lt_MiB_iff]; norm_num)] at h1
  exact h1

/-- C7: the string-options validator succeeds exactly when the input string
case-insensitively equals some element of the allow-list, fails otherwise
with the error listing all allowed values, and always succeeds on a nil
input; concretely `"B"` is accepted against `a, b, c` and `"d"` is rejected
listing `a, b, c`. -/
theorem stringOptions_validator_allowList (st : CLIState) (name : String)
    (validOpts : List String) (s : String) :
    runValidator (.stringOpts name validOpts) st none = (st, none) ∧
    runValidator (.stringOpts name validOpts) st (some (.str s)) =
      (st, if validOpts.any (fun w => strEqualFold w s) then none
           else some (optsErrMsg name validOpts)) ∧
    ((runValidator (.stringOpts name validOpts) st (some (.str s))).2 = none ↔
      ∃ w ∈ validOpts, strEqualFold w s = true) ∧
    runValidator (.stringOpts "x" ["a", "b", "c"]) st (some (.str "B")) = (st, none) ∧
    runValidator (.stringOpts "x" ["a", "b", "c"]) st (some (.str "d")) =
      (st, some (optsErrMsg "x" ["a", "b", "c"])) := by
  have heq : runValidator (.stringOpts name validOpts) st (some (.str s)) =
      (st, if validOpts.any (fun w => strEqualFold w s) then none
           else some (optsErrMsg name validOpts)) := by
    simp only [runValidator]; unfold stringOptsValidatorFn
    cases validOpts with
    | nil => simp
    | cons hd tl =>
        by_cases hc : (hd :: tl).any (fun w => strEqualFold w s) <;> simp [hc]
  refine ⟨by simp [runValidator, stringOptsValidatorFn], heq, ?_, ?_, ?_⟩
  · rw [heq]
    by_cases hc : validOpts.any (fun w => strEqualFold w s)
    · simp only [hc, if_true]
      simpa [List.any_eq_true] using hc
    · simp only [hc, if_false]
      simp only [List.any_eq_true] at hc
      simpa using hc
  · simp only [runValidator]; unfold stringOptsValidatorFn
    exact rfl
  · simp only [runValidator]; unfold stringOptsValidatorFn
    exact rfl

/-- C2 counterexample: the ratio validator accepts `"0:5"` with no error and
stores the IEEE infinity produced by `5 / 0`, instead of rejecting it. -/
theorem ratio_zero_first_component_counterexample :
    runValidator (.ratioV "r") ⟨[("r", .str "0:5")], [], [], [], []⟩ (some (.str "0:5")) =
      (⟨[("r", .f64 .inf)], [], [], [], []⟩, none) := by decide

/-- C2 (amended): an input whose first (pre-colon) component is zero — such as
`"0:5"` — and that otherwise matches the ratio grammar with a positive second
component is accepted by the ratio validator with no error, and the registry
value becomes the infinite floating-point ratio (the division by the zero
first component is not guarded). -/
theorem ratio_zero_first_component_accepted (st : CLIState) (name : String) (s : String)
    (v0 v1 : String) (rest : List String) (m : Int)
    (hgram : ratioGrammar s = true)
    (hsplit : goSplit s ':' = v0 :: v1 :: rest)
    (h0 : goAtoi v0 = some 0)
    (hm : goAtoi v1 = some m)
    (hmpos : 0 < m) :
    runValidator (.ratioV name) st (some (.str s)) =
      ({ st with flags := setAssoc st.flags name (.f64 .inf) }, none) := by
  simp only [runValidator, ratioValidatorFn]
  have hdiv : f64Div ((m : Int) : Rat) ((0 : Int) : Rat) = .inf := by
    unfold f64Div
    rw [Int.cast_zero, if_pos rfl, if_pos (by exact_mod_cast hmpos)]
  rw [hgram, if_pos rfl, hsplit]
  simp only [h0, hm, hdiv]

/-- Witness for C2 (amended) at the concrete input `"0:5"`. -/
theorem ratio_zero_first_component_accepted_witness :
    runValidator (.ratioV "r") ⟨[("r", .str "0:5")], [], [], [], []⟩ (some (.str "0:5")) =
      (⟨[("r", .f64 .inf)], [], [], [], []⟩, none) ∧
    ratioGrammar "0:5" = true := by
  refine ⟨?_, by decide⟩
  have h := ratio_zero_first_component_accepted ⟨[("r", .str "0:5")], [], [], [], []⟩ "r" "0:5"
    "0" "5" [] 5 (by decide) (by decide) (by decide) (by decide) (by decide)
  exact h

/-- C3 counterexample: `"99999999999999999999:1"` matches the grammar
`digits:digits` and has a non-zero first component, yet the validator rejects
it (its first component overflows `strconv.Atoi`), contradicting the claim
that every grammar-matching input with a non-zero first component is
accepted. -/
theorem ratio_grammar_overflow_counterexample :
    ratioGrammar "99999999999999999999:1" = true ∧
    runValidator (.ratioV "r") ⟨[("r", .str "99999999999999999999:1")], [], [], [], []⟩
        (some (.str "99999999999999999999:1")) =
      (⟨[("r", .str "99999999999999999999:1")], [], [], [], []⟩,
        some (ratioIntegersMsg "r")) := by
  refine ⟨by decide, by decide⟩

/-- C3 (amended): an input matching `digits:digits` whose components both fit
in a 64-bit int (i.e. `strconv.Atoi` accepts them) and whose first component
is non-zero is accepted, and the registry value becomes the quotient
`second/first` (so `"1:2"` yields `2.0`, `"2:1"` yields `0.5`); any input not
matching the grammar — such as `"abc"` or `"1-2"` — is rejected with the
error naming the flag. -/
theorem ratio_parse_spec (st : CLIState) (name : String) (s : String) :
    (∀ (v0 v1 : String) (rest : List String) (a b : Int),
      ratioGrammar s = true →
      goSplit s ':' = v0 :: v1 :: rest →
      goAtoi v0 = some a →
      goAtoi v1 = some b →
      a ≠ 0 →
      runValidator (.ratioV name) st (some (.str s)) =
        ({ st with flags := setAssoc st.flags name (.f64 (.fin ((b : Rat) / (a : Rat)))) },
          none)) ∧
    (ratioGrammar s = false →
      runValidator (.ratioV name) st (some (.str s)) = (st, some (ratioInvalidMsg name))) := by
  constructor
  · intro v0 v1 rest a b hgram hsplit h0 h1 ha
    simp only [runValidator, ratioValidatorFn]
    have hdiv : f64Div ((b : Int) : Rat) ((a : Int) : Rat) = .fin ((b : Rat) / (a : Rat)) := by
      unfold f64Div
      rw [if_neg (by exact_mod_cast ha)]
    rw [hgram, if_pos rfl, hsplit]
    simp only [h0, h1, hdiv]
  · intro hgram
    simp only [runValidator, ratioValidatorFn]
    rw [hgram, if_neg (by simp)]

/-- Witness for C3 (amended): `"1:2"` stores `2`, `"2:1"` stores `1/2`,
`"abc"` and `"1-2"` are rejected naming the flag. -/
theorem ratio_parse_spec_witness :
    runValidator (.ratioV "r") ⟨[("r", .str "1:2")], [], [], [], []⟩ (some (.str "1:2")) =
      (⟨[("r", .f64 (.fin 2))], [], [], [], []⟩, none) ∧
    runValidator (.ratioV "r") ⟨[("r", .str "2:1")], [], [], [], []⟩ (some (.str "2:1")) =
      (⟨[("r", .f64 (.fin (1 / 2)))], [], [], [], []⟩, none) ∧
    runValidator (.ratioV "r") ⟨[("r", .str "abc")], [], [], [], []⟩ (some (.str "abc")) =
      (⟨[("r", .str "abc")], [], [], [], []⟩, some (ratioInvalidMsg "r")) ∧
    runValidator (.ratioV "r") ⟨[("r", .str "1-2")], [], [], [], []⟩ (some (.str "1-2")) =
      (⟨[("r", .str "1-2")], [], [], [], []⟩, some (ratioInvalidMsg "r")) := by
  refine ⟨?_, ?_, ?_, ?_⟩
  · have h := (ratio_parse_spec ⟨[("r", .str "1:2")], [], [], [], []⟩ "r" "1:2").1 "1" "2" [] 1 2
      (by decide) (by decide) (by decide) (by decide) (by decide)
    rw [show ((2 : Int) : Rat) / ((1 : Int) : Rat) = 2 by norm_num] at h
    exact h
  · have h := (ratio_parse_spec ⟨[("r", .str "2:1")], [], [], [], []⟩ "r" "2:1").1 "2" "1" [] 2 1
      (by decide) (by decide) (by decide) (by decide) (by decide)
    rw [show ((1 : Int) : Rat) / ((2 : Int) : Rat) = 1 / 2 by norm_num] at h
    exact h
  · exact (ratio_parse_spec ⟨[("r", .str "abc")], [], [], [], []⟩ "r" "abc").2 (by decide)
  · exact (ratio_parse_spec ⟨[("r", .str "1-2")], [], [], [], []⟩ "r" "1-2").2 (by decide)

/-- C5 counterexample: running the ratio flag's validator on `"1:2"` succeeds
and rewrites the flag's registry entry (from the raw string to the derived
float), so not every registered validator leaves the registry unchanged. -/
theorem validator_mutates_registry_counterexample :
    (runValidator (.ratioV "r") ⟨[("r", .str "1:2")], [], [], [], []⟩ (some (.str "1:2"))).1 ≠
      ⟨[("r", .str "1:2")], [], [], [], []⟩ := by decide

/-- C5 (amended): every validator `flags.go` creates, except the ratio
flag's, returns the registry unchanged; the ratio validator either leaves the
registry unchanged (in particular on every failure) or, on success, rewrites
exactly its own flag's entry with the derived float factor. -/
theorem validators_pure_except_ratio (vs : VSpec) (st : CLIState) (val : Option Val) :
    ((∀ n, vs ≠ .ratioV n) → (runValidator vs st val).1 = st) ∧
    (∀ n, vs = .ratioV n →
      (runValidator vs st val).1 = st ∨
      ((runValidator vs st val).2 = none ∧
        ∃ x : F64, (runValidator vs st val).1 =
          { st with flags := setAssoc st.flags n (.f64 x) })) := by
  constructor
  · intro hne
    cases vs with
    | ratioV n => exact absurd rfl (hne n)
    | intRange n =>
        simp only [runValidator]; unfold intRangeValidatorFn
        repeat' split
        all_goals rfl
    | int32Range n =>
        simp only [runValidator]; unfold int32RangeValidatorFn
        repeat' split
        all_goals rfl
    | float64Range n =>
        simp only [runValidator]; unfold float64RangeValidatorFn
        repeat' split
        all_goals rfl
    | byteQuantityRange n =>
        simp only [runValidator]; unfold byteQuantityRangeValidatorFn
        repeat' split
        all_goals rfl
    | stringOpts n opts =>
        simp only [runValidator]; unfold stringOptsValidatorFn
        repeat' split
        all_goals rfl
    | byteQuantityValidator n =>
        simp only [runValidator]; unfold byteQuantityValidatorFn
        repeat' split
        all_goals rfl
    | regexValidator n =>
        simp only [runValidator]; unfold regexValidatorFn
        repeat' split
        all_goals rfl
  · intro n hv
    subst hv
    simp only [runValidator]; unfold ratioValidatorFn
    rcases val with _ | v
    · left; rfl
    · cases v
      case str s =>
        repeat' split
        all_goals first
          | (left; rfl)
          | (right; exact ⟨rfl, _, rfl⟩)
      all_goals left; rfl

/-- C8: the regex flag's processor applied to a string value stores the
compiled regex and succeeds when compilation succeeds, fails with the error
naming the flag when compilation fails, passes through an already-compiled
regex or a nil value unchanged, and fails on any other value kind. -/
theorem regexProcessor_spec (ext : ExtCalls) (st : CLIState) (name : String) :
    (∀ s r, ext.compileRegex s = some r →
      runProcessor ext (.regexProcessor name) st (some (.str s)) =
        ({ st with flags := setAssoc st.flags name (.regex r) }, none)) ∧
    (∀ s, ext.compileRegex s = none →
      runProcessor ext (.regexProcessor name) st (some (.str s)) =
        (st, some (regexInvalidInputMsg name ++ " Unable to compile the regex"))) ∧
    (∀ p, runProcessor ext (.regexProcessor name) st (some (.regex p)) = (st, none)) ∧
    runProcessor ext (.regexProcessor name) st none = (st, none) ∧
    (∀ v : Val, (∀ s, v ≠ .str s) → (∀ p, v ≠ .regex p) →
      runProcessor ext (.regexProcessor name) st (some v) =
        (st, some (regexInvalidInputMsg name ++ " Input type is unsupported"))) := by
  refine ⟨?_, ?_, ?_, ?_, ?_⟩
  · intro s r h
    simp only [runProcessor, regexProcessorFn]
    rw [h]
  · intro s h
    simp only [runProcessor, regexProcessorFn]
    rw [h]
  · intro p
    simp only [runProcessor, regexProcessorFn]
  · simp only [runProcessor, regexProcessorFn]
  · intro v hs hp
    cases v
    case str s => exact absurd rfl (hs s)
    case regex p => exact absurd rfl (hp p)
    all_goals simp only [runProcessor, regexProcessorFn]

/-- Witness for C8 with a concrete compiler: `"^a.*z$"` compiles and is
stored, `"(unclosed"` fails with the error naming the flag, a nil value and
an int value behave as stated. -/
theorem regexProcessor_spec_witness :
    runProcessor ⟨fun s => if s = "(unclosed" then none else some s, some, fun _ => none⟩
        (.regexProcessor "allow-list") ⟨[], [], [], [], []⟩ (some (.str "^a.*z$")) =
      (⟨[("allow-list", .regex "^a.*z$")], [], [], [], []⟩, none) ∧
    runProcessor ⟨fun s => if s = "(unclosed" then none else some s, some, fun _ => none⟩
        (.regexProcessor "allow-list") ⟨[], [], [], [], []⟩ (some (.str "(unclosed")) =
      (⟨[], [], [], [], []⟩,
        some (regexInvalidInputMsg "allow-list" ++ " Unable to compile the regex")) ∧
    runProcessor ⟨fun s => if s = "(unclosed" then none else some s, some, fun _ => none⟩
        (.regexProcessor "allow-list") ⟨[], [], [], [], []⟩ (some (.int 3)) =
      (⟨[], [], [], [], []⟩,
        some (regexInvalidInputMsg "allow-list" ++ " Input type is unsupported")) := by
  refine ⟨?_, ?_, ?_⟩
  · exact (regexProcessor_spec ⟨fun s => if s = "(unclosed" then none else some s, some,
      fun _ => none⟩ ⟨[], [], [], [], []⟩ "allow-list").1 "^a.*z$" "^a.*z$" (by decide)
  · exact (regexProcessor_spec ⟨fun s => if s = "(unclosed" then none else some s, some,
      fun _ => none⟩ ⟨[], [], [], [], []⟩ "allow-list").2.1 "(unclosed" (by decide)
  · exact (regexProcessor_spec ⟨fun s => if s = "(unclosed" then none else some s, some,
      fun _ => none⟩ ⟨[], [], [], [], []⟩ "allow-list").2.2.2.2 (.int 3)
      (fun s h => Val.noConfusion h) (fun p h => Val.noConfusion h)

/-- C10: the registry-rewriting pipeline stages (the ratio validator and the
byte-quantity, regex, and path processors) are atomic on failure: whenever
one returns an error, the registry is exactly what it was before the call. -/
theorem failure_atomicity (ext : ExtCalls) (st : CLIState) (name : String) (val : Option Val) :
    (∀ st2 e, runValidator (.ratioV name) st val = (st2, some e) → st2 = st) ∧
    (∀ st2 e, runProcessor ext (.byteQuantityProcessor name) st val = (st2, some e) → st2 = st) ∧
    (∀ st2 e, runProcessor ext (.regexProcessor name) st val = (st2, some e) → st2 = st) ∧
    (∀ st2 e, runProcessor ext (.pathProcessor name) st val = (st2, some e) → st2 = st) := by
  refine ⟨?_, ?_, ?_, ?_⟩ <;> intro st2 e h
  · simp only [runValidator] at h
    unfold ratioValidatorFn at h
    rcases val with _ | v
    · exact Option.noConfusion (congrArg Prod.snd h)
    · cases v
      all_goals repeat' split at h
      all_goals first
        | exact (congrArg Prod.fst h).symm
        | exact Option.noConfusion (congrArg Prod.snd h)
  · simp only [runProcessor] at h
    unfold byteQuantityProcessorFn at h
    rcases val with _ | v
    · exact Option.noConfusion (congrArg Prod.snd h)
    · cases v
      all_goals repeat' split at h
      all_goals first
        | exact (congrArg Prod.fst h).symm
        | exact Option.noConfusion (congrArg Prod.snd h)
  · simp only [runProcessor] at h
    unfold regexProcessorFn at h
    rcases val with _ | v
    · exact Option.noConfusion (congrArg Prod.snd h)
    · cases v
      all_goals repeat' split at h
      all_goals first
        | exact (congrArg Prod.fst h).symm
        | exact Option.noConfusion (congrArg Prod.snd h)
  · simp only [runProcessor] at h
    unfold pathProcessorFn at h
    rcases val with _ | v
    · exact Option.noConfusion (congrArg Prod.snd h)
    · cases v
      all_goals repeat' split at h
      all_goals first
        | exact (congrArg Prod.fst h).symm
        | exact Option.noConfusion (congrArg Prod.snd h)

/-- Witness for C10 at concrete failing inputs: a malformed ratio, an
unparsable byte quantity, an uncompilable regex, and an unexpandable path
each return an error and leave the registry exactly as it was. -/
theorem failure_atomicity_witness :
    runValidator (.ratioV "r") ⟨[("x", .int 1)], [], [], [], []⟩ (some (.str "abc")) =
      (⟨[("x", .int 1)], [], [], [], []⟩, some (ratioInvalidMsg "r")) ∧
    (runValidator (.ratioV "r") ⟨[("x", .int 1)], [], [], [], []⟩ (some (.str "abc"))).1 =
      ⟨[("x", .int 1)], [], [], [], []⟩ ∧
    (runProcessor ⟨fun _ => none, fun _ => none, fun _ => none⟩ (.byteQuantityProcessor "m")
        ⟨[("x", .int 1)], [], [], [], []⟩ (some (.str "zzz"))).1 =
      ⟨[("x", .int 1)], [], [], [], []⟩ ∧
    (runProcessor ⟨fun _ => none, fun _ => none, fun _ => none⟩ (.regexProcessor "re")
        ⟨[("x", .int 1)], [], [], [], []⟩ (some (.str "(unclosed"))).1 =
      ⟨[("x", .int 1)], [], [], [], []⟩ ∧
    (runProcessor ⟨fun _ => none, fun _ => none, fun _ => none⟩ (.pathProcessor "p")
        ⟨[("x", .int 1)], [], [], [], []⟩ (some (.str "~x"))).1 =
      ⟨[("x", .int 1)], [], [], [], []⟩ := by
  refine ⟨by decide, ?_, ?_, ?_, ?_⟩
  · exact (failure_atomicity ⟨fun _ => none, fun _ => none, fun _ => none⟩
      ⟨[("x", .int 1)], [], [], [], []⟩ "r" (some (.str "abc"))).1
      ⟨[("x", .int 1)], [], [], [], []⟩ (ratioInvalidMsg "r") (by decide)
  · exact (failure_atomicity ⟨fun _ => none, fun _ => none, fun _ => none⟩
      ⟨[("x", .int 1)], [], [], [], []⟩ "m" (some (.str "zzz"))).2.1
      ⟨[("x", .int 1)], [], [], [], []⟩
      (bqInvalidInputMsg "m" ++ " Can't parse byte quantity " ++ "zzz") (by decide)
  · exact (failure_atomicity ⟨fun _ => none, fun _ => none, fun _ => none⟩
      ⟨[("x", .int 1)], [], [], [], []⟩ "re" (some (.str "(unclosed"))).2.2.1
      ⟨[("x", .int 1)], [], [], [], []⟩
      (regexInvalidInputMsg "re" ++ " Unable to compile the regex") (by decide)
  · exact (failure_atomicity ⟨fun _ => none, fun _ => none, fun _ => none⟩
      ⟨[("x", .int 1)], [], [], [], []⟩ "p" (some (.str "~x"))).2.2.2
      ⟨[("x", .int 1)], [], [], [], []⟩
      (pathInvalidInputMsg "p" ++ " Unable to expand path") (by decide)

/-- C4: every typed flag builder registered with a nil default records the
flag's name in the unset-defaults table and installs that type's zero value
as the registered default, while any explicitly passed default (including the
type's zero value) leaves the unset-defaults table unchanged — so the two
cases are distinguishable after registration. -/
theorem builders_record_nil_defaults (st : CLIState) (name : String)
    (pf : Option PSpec) (vf : Option VSpec) (validOpts : List String) :
    ((BoolFlagOnFlagSet st name none).nilDefaults = insertName name st.nilDefaults ∧
     name ∈ (BoolFlagOnFlagSet st name none).nilDefaults ∧
     lookupAssoc (BoolFlagOnFlagSet st name none).flags name = some (.boolV false) ∧
     ∀ d, (BoolFlagOnFlagSet st name (some d)).nilDefaults = st.nilDefaults) ∧
    ((IntFlagOnFlagSet st name none).nilDefaults = insertName name st.nilDefaults ∧
     name ∈ (IntFlagOnFlagSet st name none).nilDefaults ∧
     lookupAssoc (IntFlagOnFlagSet st name none).flags name = some (.int 0) ∧
     ∀ d, (IntFlagOnFlagSet st name (some d)).nilDefaults = st.nilDefaults) ∧
    ((Int32FlagOnFlagSet st name none).nilDefaults = insertName name st.nilDefaults ∧
     name ∈ (Int32FlagOnFlagSet st name none).nilDefaults ∧
     lookupAssoc (Int32FlagOnFlagSet st name none).flags name = some (.i32 0) ∧
     ∀ d, (Int32FlagOnFlagSet st name (some d)).nilDefaults = st.nilDefaults) ∧
    ((Float64FlagOnFlagSet st name none).nilDefaults = insertName name st.nilDefaults ∧
     name ∈ (Float64FlagOnFlagSet st name none).nilDefaults ∧
     lookupAssoc (Float64FlagOnFlagSet st name none).flags name = some (.f64 (.fin 0)) ∧
     ∀ d, (Float64FlagOnFlagSet st name (some d)).nilDefaults = st.nilDefaults) ∧
    ((StringFlagOnFlagSet st name none pf vf).nilDefaults = insertName name st.nilDefaults ∧
     name ∈ (StringFlagOnFlagSet st name none pf vf).nilDefaults ∧
     lookupAssoc (StringFlagOnFlagSet st name none pf vf).flags name = some (.str "") ∧
     ∀ d, (StringFlagOnFlagSet st name (some d) pf vf).nilDefaults = st.nilDefaults) ∧
    ((StringSliceFlagOnFlagSet st name none).nilDefaults = insertName name st.nilDefaults ∧
     name ∈ (StringSliceFlagOnFlagSet st name none).nilDefaults ∧
     lookupAssoc (StringSliceFlagOnFlagSet st name none).flags name = some (.strSlice []) ∧
     ∀ d, (StringSliceFlagOnFlagSet st name (some d)).nilDefaults = st.nilDefaults) ∧
    ((RatioFlag st name none).nilDefaults = insertName name st.nilDefaults ∧
     name ∈ (RatioFlag st name none).nilDefaults ∧
     lookupAssoc (RatioFlag st name none).flags name = some (.str "") ∧
     ∀ d, (RatioFlag st name (some d)).nilDefaults = st.nilDefaults) ∧
    ((ByteQuantityFlagOnFlagSet st name none).nilDefaults = insertName name st.nilDefaults ∧
     name ∈ (ByteQuantityFlagOnFlagSet st name none).nilDefaults ∧
     lookupAssoc (ByteQuantityFlagOnFlagSet st name none).flags name = some (.str "") ∧
     ∀ d, (ByteQuantityFlagOnFlagSet st name (some d)).nilDefaults = st.nilDefaults) ∧
    ((RegexFlagOnFlagSet st name none).nilDefaults = insertName name st.nilDefaults ∧
     name ∈ (RegexFlagOnFlagSet st name none).nilDefaults ∧
     lookupAssoc (RegexFlagOnFlagSet st name none).flags name = some (.str "") ∧
     ∀ d, (RegexFlagOnFlagSet st name (some d)).nilDefaults = st.nilDefaults) ∧
    ((PathFlagOnFlagSet st name none).nilDefaults = insertName name st.nilDefaults ∧
     name ∈ (PathFlagOnFlagSet st name none).nilDefaults ∧
     lookupAssoc (PathFlagOnFlagSet st name none).flags name = some (.str "") ∧
     ∀ d, (PathFlagOnFlagSet st name (some d)).nilDefaults = st.nilDefaults) ∧
    ((StringOptionsFlagOnFlagSet st name none validOpts).nilDefaults =
        insertName name st.nilDefaults ∧
     name ∈ (StringOptionsFlagOnFlagSet st name none validOpts).nilDefaults ∧
     lookupAssoc (StringOptionsFlagOnFlagSet st name none validOpts).flags name =
        some (.str "") ∧
     ∀ d, (StringOptionsFlagOnFlagSet st name (some d) validOpts).nilDefaults =
        st.nilDefaults) := by
  refine ⟨⟨rfl, ?_, ?_, fun d => rfl⟩, ⟨rfl, ?_, ?_, fun d => rfl⟩, ⟨rfl, ?_, ?_, fun d => rfl⟩,
    ⟨rfl, ?_, ?_, fun d => rfl⟩, ⟨rfl, ?_, ?_, fun d => rfl⟩, ⟨rfl, ?_, ?_, fun d => rfl⟩,
    ⟨rfl, ?_, ?_, fun d => rfl⟩, ⟨rfl, ?_, ?_, fun d => rfl⟩, ⟨rfl, ?_, ?_, fun d => rfl⟩,
    ⟨rfl, ?_, ?_, fun d => rfl⟩, ⟨rfl, ?_, ?_, fun d => rfl⟩⟩
  all_goals first
    | exact self_mem_insertName name st.nilDefaults
    | exact lookupAssoc_setAssoc_self st.flags name _

/-- C9: for every range-triplet registration, the derived `<name>-min` and
`<name>-max` flags are registered with nil defaults — both land in the
unset-defaults table and hold the zero sentinel regardless of whether the
base flag was given an explicit default — while only the base name enters the
range-flags table and only the base name carries the ordering validator
(for the byte-quantity variant the derived flags carry the per-flag
byte-quantity validator instead; for the other variants their validator
entries are untouched). -/
theorem rangeTriplet_registration (st : CLIState) (name : String) :
    (∀ dv : Option Int,
      (name ++ "-min") ∈ (IntMinMaxRangeFlagOnFlagSet st name dv).nilDefaults ∧
      (name ++ "-max") ∈ (IntMinMaxRangeFlagOnFlagSet st name dv).nilDefaults ∧
      lookupAssoc (IntMinMaxRangeFlagOnFlagSet st name dv).flags (name ++ "-min") =
        some (.int 0) ∧
      lookupAssoc (IntMinMaxRangeFlagOnFlagSet st name dv).flags (name ++ "-max") =
        some (.int 0) ∧
      (IntMinMaxRangeFlagOnFlagSet st name dv).rangeFlags = insertName name st.rangeFlags ∧
      lookupAssoc (IntMinMaxRangeFlagOnFlagSet st name dv).validators name =
        some (some (.intRange name)) ∧
      lookupAssoc (IntMinMaxRangeFlagOnFlagSet st name dv).validators (name ++ "-min") =
        lookupAssoc st.validators (name ++ "-min") ∧
      lookupAssoc (IntMinMaxRangeFlagOnFlagSet st name dv).validators (name ++ "-max") =
        lookupAssoc st.validators (name ++ "-max")) ∧
    (∀ dv : Option Int,
      (name ++ "-min") ∈ (Int32MinMaxRangeFlagOnFlagSet st name dv).nilDefaults ∧
      (name ++ "-max") ∈ (Int32MinMaxRangeFlagOnFlagSet st name dv).nilDefaults ∧
      lookupAssoc (Int32MinMaxRangeFlagOnFlagSet st name dv).flags (name ++ "-min") =
        some (.i32 0) ∧
      lookupAssoc (Int32MinMaxRangeFlagOnFlagSet st name dv).flags (name ++ "-max") =
        some (.i32 0) ∧
      (Int32MinMaxRangeFlagOnFlagSet st name dv).rangeFlags = insertName name st.rangeFlags ∧
      lookupAssoc (Int32MinMaxRangeFlagOnFlagSet st name dv).validators name =
        some (some (.int32Range name)) ∧
      lookupAssoc (Int32MinMaxRangeFlagOnFlagSet st name dv).validators (name ++ "-min") =
        lookupAssoc st.validators (name ++ "-min") ∧
      lookupAssoc (Int32MinMaxRangeFlagOnFlagSet st name dv).validators (name ++ "-max") =
        lookupAssoc st.validators (name ++ "-max")) ∧
    (∀ dv : Option F64,
      (name ++ "-min") ∈ (Float64MinMaxRangeFlagOnFlagSet st name dv).nilDefaults ∧
      (name ++ "-max") ∈ (Float64MinMaxRangeFlagOnFlagSet st name dv).nilDefaults ∧
      lookupAssoc (Float64MinMaxRangeFlagOnFlagSet st name dv).flags (name ++ "-min") =
        some (.f64 (.fin 0)) ∧
      lookupAssoc (Float64MinMaxRangeFlagOnFlagSet st name dv).flags (name ++ "-max") =
        some (.f64 (.fin 0)) ∧
      (Float64MinMaxRangeFlagOnFlagSet st name dv).rangeFlags = insertName name st.rangeFlags ∧
      lookupAssoc (Float64MinMaxRangeFlagOnFlagSet st name dv).validators name =
        some (some (.float64Range name)) ∧
      lookupAssoc (Float64MinMaxRangeFlagOnFlagSet st name dv).validators (name ++ "-min") =
        lookupAssoc st.validators (name ++ "-min") ∧
      lookupAssoc (Float64MinMaxRangeFlagOnFlagSet st name dv).validators (name ++ "-max") =
        lookupAssoc st.validators (name ++ "-max")) ∧
    (∀ dv : Option ByteQuantity,
      (name ++ "-min") ∈ (ByteQuantityMinMaxRangeFlagOnFlagSet st name dv).nilDefaults ∧
      (name ++ "-max") ∈ (ByteQuantityMinMaxRangeFlagOnFlagSet st name dv).nilDefaults ∧
      lookupAssoc (ByteQuantityMinMaxRangeFlagOnFlagSet st name dv).flags (name ++ "-min") =
        some (.str "") ∧
      lookupAssoc (ByteQuantityMinMaxRangeFlagOnFlagSet st name dv).flags (name ++ "-max") =
        some (.str "") ∧
      (ByteQuantityMinMaxRangeFlagOnFlagSet st name dv).rangeFlags =
        insertName name st.rangeFlags ∧
      lookupAssoc (ByteQuantityMinMaxRangeFlagOnFlagSet st name dv).validators name =
        some (some (.byteQuantityRange name)) ∧
      lookupAssoc (ByteQuantityMinMaxRangeFlagOnFlagSet st name dv).validators (name ++ "-min") =
        some (some (.byteQuantityValidator (name ++ "-min"))) ∧
      lookupAssoc (ByteQuantityMinMaxRangeFlagOnFlagSet st name dv).validators (name ++ "-max") =
        some (some (.byteQuantityValidator (name ++ "-max")))) := by
  have h1 : name ++ "-min" ≠ name := Ne.symm (base_ne_min name)
  have h2 : name ++ "-max" ≠ name := Ne.symm (base_ne_max name)
  have h3 : name ++ "-min" ≠ name ++ "-max" := min_ne_max name
  have h4 : name ++ "-max" ≠ name ++ "-min" := Ne.symm (min_ne_max name)
  refine ⟨?_, ?_, ?_, ?_⟩ <;> intro dv <;> cases dv <;>
    simp [IntMinMaxRangeFlagOnFlagSet, Int32MinMaxRangeFlagOnFlagSet,
      Float64MinMaxRangeFlagOnFlagSet, ByteQuantityMinMaxRangeFlagOnFlagSet,
      IntFlagOnFlagSet, Int32FlagOnFlagSet, Float64FlagOnFlagSet,
      ByteQuantityFlagOnFlagSet, StringFlagOnFlagSet,
      mem_insertName, lookupAssoc_setAssoc_ne, h1, h2, h3, h4]

/-- Witness for C5 (amended) at concrete inputs: a string-options validator
leaves the registry unchanged, and the ratio validator on `"1:2"` falls in
the allowed alternative (success rewriting only its own entry). -/
theorem validators_pure_except_ratio_witness :
    (runValidator (.stringOpts "o" ["a"]) ⟨[("o", .str "b")], [], [], [], []⟩
        (some (.str "b"))).1 = ⟨[("o", .str "b")], [], [], [], []⟩ ∧
    ((runValidator (.ratioV "r") ⟨[("r", .str "1:2")], [], [], [], []⟩
          (some (.str "1:2"))).1 = ⟨[("r", .str "1:2")], [], [], [], []⟩ ∨
      ((runValidator (.ratioV "r") ⟨[("r", .str "1:2")], [], [], [], []⟩
            (some (.str "1:2"))).2 = none ∧
        ∃ x : F64,
          (runValidator (.ratioV "r") ⟨[("r", .str "1:2")], [], [], [], []⟩
              (some (.str "1:2"))).1 =
            ⟨setAssoc [("r", .str "1:2")] "r" (.f64 x), [], [], [], []⟩)) := by
  constructor
  · exact (validators_pure_except_ratio (.stringOpts "o" ["a"])
      ⟨[("o", .str "b")], [], [], [], []⟩ (some (.str "b"))).1
      (fun n h => VSpec.noConfusion h)
  · exact (validators_pure_except_ratio (.ratioV "r")
      ⟨[("r", .str "1:2")], [], [], [], []⟩ (some (.str "1:2"))).2 "r" rfl
